import Mathlib

/-!
# Verification of the probe-rs session manager (`src/probe-rs/src/session.rs`)

Shallow embedding of the session module: the Session lifecycle, the
architecture-interface dispatch, the reset-under-debug sequence, the
breakpoint-clearing loop, and the target-resolution / autodetection protocol.

External collaborators (transport/probe firmware, the ARM and RISC-V
communication interfaces, the registry, and the per-core hardware operations)
are not part of the embedded file; they are modelled as explicit behaviour
records and simulated hardware state, following the contracts the design
document states for them.  Every function of `session.rs` itself is translated
line by line.
-/

/-- The two debug architectures (`crate::core::Architecture`). -/
inductive Architecture where
  | Arm
  | Riscv
deriving DecidableEq, Repr

/-- Modelled from the spec: the core types a target can declare
(`crate::CoreType`); the concrete variant list follows the upstream crate. -/
inductive CoreType where
  | M0
  | M3
  | M4
  | M33
  | Riscv
deriving DecidableEq, Repr

/-- Modelled from the spec: the architecture tag encoded by a core type
(RISC-V cores are RISC-V, the Cortex-M cores are ARM). -/
def CoreType.architecture : CoreType → Architecture
  | .Riscv => .Riscv
  | _ => .Arm

/-- Modelled from the spec: a memory region of the target descriptor
(opaque to this module; only carried around). -/
structure MemoryRegion where
  address : Nat
  size : Nat
deriving DecidableEq, Repr

/-- Modelled from the spec: a flash-algorithm descriptor of the target
descriptor (opaque to this module; only carried around). -/
structure RawFlashAlgorithm where
  algoName : String
deriving DecidableEq, Repr

/-- Modelled from the spec: the immutable static chip descriptor produced by
the registry (`crate::config::Target`): architecture/core type, memory
regions, flash algorithms.  This snapshot of the code declares exactly one
core per target, through the single `core_type` field. -/
structure Target where
  name : String
  core_type : CoreType
  memory_map : List MemoryRegion
  flash_algorithms : List RawFlashAlgorithm
deriving DecidableEq, Repr

/-- Modelled from the spec: `Target::architecture()` — the architecture tag
encoded in the target descriptor, derived from its core type. -/
def Target.architecture (t : Target) : Architecture :=
  t.core_type.architecture

/-- The cores declared by a Target: this snapshot declares exactly one core,
named by the `core_type` field. -/
def Target.declaredCores (t : Target) : List CoreType :=
  [t.core_type]

/-- Modelled from the spec: identification data read from an ARM ROM table
(`ArmChipInfo`): manufacturer code and part number. -/
structure ArmChipInfo where
  manufacturer : Nat
  part : Nat
deriving DecidableEq, Repr

/-- Modelled from the spec: the ephemeral chip identity consumed by the
registry lookup (`crate::config::ChipInfo`); `ChipInfo::from` wraps the ARM
variant. -/
inductive ChipInfo where
  | Arm (info : ArmChipInfo)
deriving DecidableEq, Repr

/-- Modelled from the spec: registry error reasons.  `NameNotFound` is the
reason for a failed lookup-by-name; `ChipAutodetectFailed` is named verbatim
at `session.rs:258`. -/
inductive RegistryError where
  | NameNotFound
  | ChipAutodetectFailed
deriving DecidableEq, Repr

/-- The error taxonomy of the session module (`crate::Error`): `CoreNotFound`
and `ChipNotFound` are raised verbatim in `session.rs`; `Other` carries the
`anyhow!` messages of `ArchitectureInterfaceState::attach`; `Probe` models
verbatim-propagated transport errors; `Timeout` is the reset-halt wait
expiry. -/
inductive Error where
  | CoreNotFound (n : Nat)
  | ChipNotFound (e : RegistryError)
  | Other (msg : String)
  | Probe (msg : String)
  | Timeout
deriving DecidableEq, Repr

/-- The target selector (`crate::config::TargetSelector`): explicit target,
chip name, or automatic detection. -/
inductive TargetSelector where
  | Specified (t : Target)
  | Unspecified (name : String)
  | Auto
deriving DecidableEq, Repr

/-- The attach method (`crate::AttachMethod`). -/
inductive AttachMethod where
  | Normal
  | UnderReset
deriving DecidableEq, Repr

instance {ε α : Type} [DecidableEq ε] [DecidableEq α] : DecidableEq (Except ε α) := fun a b =>
  match a, b with
  | .ok x, .ok y =>
      if h : x = y then .isTrue (by rw [h]) else .isFalse (by intro c; cases c; exact h rfl)
  | .ok _, .error _ => .isFalse (by intro h; cases h)
  | .error _, .ok _ => .isFalse (by intro h; cases h)
  | .error x, .error y =>
      if h : x = y then .isTrue (by rw [h]) else .isFalse (by intro c; cases c; exact h rfl)

/-- Modelled from the spec: the behaviour of a constructed ARM communication
interface, as far as this module consumes it — the outcome of scanning the
ROM table (`ArmChipInfo::read_from_rom_table`): identity found, no identity,
or a protocol error (carried as its display string). -/
structure ArmIfaceB where
  rom_table : Except String (Option ArmChipInfo)
deriving DecidableEq, Repr

/-- Modelled from the spec: the behaviour of a constructed RISC-V
communication interface, as far as this module consumes it — the ID code
returned by `read_idcode`. -/
structure RiscvIfaceB where
  idcode : Nat
deriving DecidableEq, Repr

/-- Modelled from the spec: the simulated transport (`crate::Probe`).  The
architecture-specific interface constructors return either a ready
interface, "absent" (`Ok(None)`), or a hard transport error; the transport
also answers `has_jtag_interface` and performs `target_reset_deassert`. -/
structure ProbeB where
  arm_interface : Except Error (Option ArmIfaceB)
  riscv_interface : Except Error (Option RiscvIfaceB)
  has_jtag_interface : Bool
  reset_deassert_res : Except Error Unit
deriving DecidableEq, Repr

/-- Modelled from the spec: the registry collaborator — a name → target
table for `get_target_by_name` plus the behaviour of
`get_target_by_chip_info`. -/
structure Registry where
  names : List (String × Target)
  by_chip_info : ChipInfo → Except RegistryError Target

/-- Modelled from the spec: `registry::get_target_by_name` — lookup by name,
failing with the name-not-found registry error when the name is absent. -/
def Registry.get_target_by_name (reg : Registry) (name : String) :
    Except RegistryError Target :=
  match reg.names.lookup name with
  | some t => .ok t
  | none => .error .NameNotFound

/-- Modelled from the spec: `registry::get_target_by_chip_info` — resolution
of an autodetected chip identity, behaviour supplied by the registry. -/
def Registry.get_target_by_chip_info (reg : Registry) (chip : ChipInfo) :
    Except RegistryError Target :=
  reg.by_chip_info chip

/-- Events recorded during target resolution: which external collaborators
the Auto algorithm consulted, in order. -/
inductive REvent where
  | armNew
  | romScan
  | riscvNew
  | readIdcode (code : Nat)
  | regByName (name : String)
  | regByChip (chip : ChipInfo)
deriving DecidableEq, Repr

/-- `try_arm_autodetect` (`session.rs:189-202`): scan the ROM table;
`unwrap_or_else` downgrades a scan error to `None` (logged only); a found
`ArmChipInfo` is wrapped into `ChipInfo`.  The function itself always
returns `Ok`. -/
def try_arm_autodetect (iface : ArmIfaceB) :
    List REvent × Except Error (Option ChipInfo) :=
  ([.romScan],
    match iface.rom_table with
    | .error _ => .ok none
    | .ok found => .ok (found.map ChipInfo.Arm))

/-- `get_target_from_selector` (`session.rs:216-264`), with the trace of
consulted collaborators.  `Specified` is used verbatim; `Unspecified` is a
registry lookup by name (`?` wraps the registry error into
`Error::ChipNotFound`); `Auto` probes ARM first (a hard error from
`ArmCommunicationInterface::new` propagates through `?`), downgrades
`try_arm_autodetect` errors to `None`, falls back to RISC-V only when no
chip was found and the transport reports JTAG (again `?` on the
constructor), and finally resolves a found identity through the registry or
fails with `ChipNotFound(ChipAutodetectFailed)`. -/
def get_target_from_selector (sel : TargetSelector) (probe : ProbeB)
    (reg : Registry) : List REvent × Except Error Target :=
  match sel with
  | .Unspecified name =>
      ([.regByName name],
        match reg.get_target_by_name name with
        | .error e => .error (.ChipNotFound e)
        | .ok t => .ok t)
  | .Specified t => ([], .ok t)
  | .Auto =>
      match probe.arm_interface with
      | .error e => ([.armNew], .error e)
      | .ok armIface =>
        let armStep : List REvent × Option ChipInfo :=
          match armIface with
          | some iface =>
              let (evs, chip_result) := try_arm_autodetect iface
              (evs,
                match chip_result with
                | .error _ => none
                | .ok c => c)
          | none => ([], none)
        let found_chip := armStep.2
        let riscvStep : List REvent × Option Error :=
          if found_chip = none ∧ probe.has_jtag_interface then
            match probe.riscv_interface with
            | .error e => ([.riscvNew], some e)
            | .ok (some iface) => ([.riscvNew, .readIdcode iface.idcode], none)
            | .ok none => ([.riscvNew], none)
          else ([], none)
        match riscvStep.2 with
        | some e => (.armNew :: (armStep.1 ++ riscvStep.1), .error e)
        | none =>
          match found_chip with
          | some chip =>
              (.armNew :: (armStep.1 ++ riscvStep.1 ++ [.regByChip chip]),
                match reg.get_target_by_chip_info chip with
                | .error e => .error (.ChipNotFound e)
                | .ok t => .ok t)
          | none =>
              (.armNew :: (armStep.1 ++ riscvStep.1),
                .error (.ChipNotFound .ChipAutodetectFailed))

/-- The transient core-access handle (`crate::Core`): in this embedding it is
the capability to drive hardware operations on the addressed core, carrying
that core's index. -/
structure Core where
  idx : Nat
deriving DecidableEq, Repr

/-- Modelled from the spec: the mutable per-core runtime state
(`crate::core::CoreState`), opaque to this module. -/
structure CoreState where
deriving DecidableEq, Repr

/-- Modelled from the spec: `Core::create_state()`. -/
def Core.create_state : CoreState := {}

/-- Modelled from the spec: `SpecificCoreState` — the static per-core
identity, one variant per core type. -/
inductive SpecificCoreState where
  | M0
  | M3
  | M4
  | M33
  | Riscv
deriving DecidableEq, Repr

/-- Modelled from the spec: `SpecificCoreState::from_core_type`. -/
def SpecificCoreState.from_core_type : CoreType → SpecificCoreState
  | .M0 => .M0
  | .M3 => .M3
  | .M4 => .M4
  | .M33 => .M33
  | .Riscv => .Riscv

/-- Modelled from the spec: `CoreType::from(&SpecificCoreState)`. -/
def SpecificCoreState.toCoreType : SpecificCoreState → CoreType
  | .M0 => .M0
  | .M3 => .M3
  | .M4 => .M4
  | .M33 => .M33
  | .Riscv => .Riscv

/-- Modelled from the spec: the ARM protocol state
(`ArmCommunicationInterfaceState`), opaque to this module. -/
structure ArmCommunicationInterfaceState where
deriving DecidableEq, Repr

/-- Modelled from the spec: `ArmCommunicationInterfaceState::new()`. -/
def ArmCommunicationInterfaceState.new : ArmCommunicationInterfaceState := {}

/-- Modelled from the spec: the RISC-V protocol state
(`RiscvCommunicationInterfaceState`), opaque to this module. -/
structure RiscvCommunicationInterfaceState where
deriving DecidableEq, Repr

/-- Modelled from the spec: `RiscvCommunicationInterfaceState::new()`. -/
def RiscvCommunicationInterfaceState.new : RiscvCommunicationInterfaceState := {}

/-- The closed two-variant architecture union
(`ArchitectureInterfaceState`, `session.rs:26-30`). -/
inductive ArchitectureInterfaceState where
  | Arm (state : ArmCommunicationInterfaceState)
  | Riscv (state : RiscvCommunicationInterfaceState)
deriving DecidableEq, Repr

/-- `impl From<ArchitectureInterfaceState> for Architecture`
(`session.rs:32-39`). -/
def ArchitectureInterfaceState.toArchitecture :
    ArchitectureInterfaceState → Architecture
  | .Arm _ => .Arm
  | .Riscv _ => .Riscv

/-- Modelled from the spec: `SpecificCoreState::attach_arm` — wrap the
freshly built interface and the core's persistent state into a transient
handle for core `idx`. -/
def SpecificCoreState.attach_arm (_core : SpecificCoreState)
    (_state : CoreState) (idx : Nat) : Except Error Core :=
  .ok ⟨idx⟩

/-- Modelled from the spec: `SpecificCoreState::attach_riscv` — as
`attach_arm`, for the RISC-V interface. -/
def SpecificCoreState.attach_riscv (_core : SpecificCoreState)
    (_state : CoreState) (idx : Nat) : Except Error Core :=
  .ok ⟨idx⟩

/-- `ArchitectureInterfaceState::attach` (`session.rs:41-61`): build the
matching communication interface on the probe (a hard constructor error
propagates through `?`), fail with the `anyhow!` message when the interface
is absent, then delegate to the specific core state's attach. -/
def ArchitectureInterfaceState.attach (ist : ArchitectureInterfaceState)
    (probe : ProbeB) (core : SpecificCoreState) (core_state : CoreState)
    (idx : Nat) : Except Error Core :=
  match ist with
  | .Arm _ =>
      match probe.arm_interface with
      | .error e => .error e
      | .ok none => .error (.Other "No DAP interface available on probe")
      | .ok (some _) => core.attach_arm core_state idx
  | .Riscv _ =>
      match probe.riscv_interface with
      | .error e => .error e
      | .ok none => .error (.Other "No JTAG interface available on probe")
      | .ok (some _) => core.attach_riscv core_state idx

/-- Events recorded by the simulated hardware: which operation ran on which
core, in order. -/
inductive Event where
  | debugStart (n : Nat)
  | catchSet (n : Nat)
  | resetDeassert
  | waitHalt (n budget : Nat)
  | catchClear (n : Nat)
  | clearBp (n : Nat)
deriving DecidableEq, Repr

/-- Modelled from the spec: the simulated hardware state and scripted
behaviour of one physical core: the outcome of each debug operation, the
poll instant (if any) at which the core halts after reset release, and the
observable core state the operations update. -/
structure HwCore where
  debug_start_res : Except Error Unit
  catch_set_res : Except Error Unit
  catch_clear_res : Except Error Unit
  halts_at : Option Nat
  clear_res : Except Error Unit
  debug_enabled : Bool
  catch_armed : Bool
  halted : Bool
  breakpoints : Nat
deriving DecidableEq, Repr

/-- The simulated silicon: one hardware core per index, plus the trace of
operations performed so far. -/
structure Hw where
  cores : Nat → HwCore
  trace : List Event

/-- Replace the hardware state of core `n`. -/
def Hw.setCore (hw : Hw) (n : Nat) (c : HwCore) : Hw :=
  { hw with cores := fun m => if m = n then c else hw.cores m }

/-- Modelled from the spec: `debug_core_start` — enable debug mode on the
addressed core, or fail. -/
def hwDebugCoreStart (hw : Hw) (c : Core) : Hw × Except Error Unit :=
  let hc := hw.cores c.idx
  let hw1 := { hw with trace := hw.trace ++ [.debugStart c.idx] }
  match hc.debug_start_res with
  | .error e => (hw1, .error e)
  | .ok _ => (hw1.setCore c.idx { hc with debug_enabled := true }, .ok ())

/-- Modelled from the spec: `reset_catch_set` — arm the reset-catch
condition on the addressed core, or fail. -/
def hwResetCatchSet (hw : Hw) (c : Core) : Hw × Except Error Unit :=
  let hc := hw.cores c.idx
  let hw1 := { hw with trace := hw.trace ++ [.catchSet c.idx] }
  match hc.catch_set_res with
  | .error e => (hw1, .error e)
  | .ok _ => (hw1.setCore c.idx { hc with catch_armed := true }, .ok ())

/-- Modelled from the spec: `reset_catch_clear` — clear the reset-catch
condition on the addressed core, or fail. -/
def hwResetCatchClear (hw : Hw) (c : Core) : Hw × Except Error Unit :=
  let hc := hw.cores c.idx
  let hw1 := { hw with trace := hw.trace ++ [.catchClear c.idx] }
  match hc.catch_clear_res with
  | .error e => (hw1, .error e)
  | .ok _ => (hw1.setCore c.idx { hc with catch_armed := false }, .ok ())

/-- Modelled from the spec: the halt status the simulated core reports at
poll instant `t` — once the core halts it stays halted. -/
def HwCore.haltedAt (hc : HwCore) (t : Nat) : Bool :=
  match hc.halts_at with
  | some t0 => t0 ≤ t
  | none => false

/-- Modelled from the spec: the polling loop of `wait_for_core_halted` —
query the halt status once per instant until it reports halted or the
budget is exhausted, producing the timeout error on expiry. -/
def waitLoop (hc : HwCore) (t : Nat) : Nat → Except Error Unit
  | 0 => .error .Timeout
  | b + 1 => if hc.haltedAt t then .ok () else waitLoop hc (t + 1) b

/-- Modelled from the spec: `Core::wait_for_core_halted(duration)` — bounded
polling wait, one poll per millisecond of the budget; on success the core
is observed halted. -/
def hwWaitForCoreHalted (hw : Hw) (c : Core) (ms : Nat) :
    Hw × Except Error Unit :=
  let hc := hw.cores c.idx
  let hw1 := { hw with trace := hw.trace ++ [.waitHalt c.idx ms] }
  match waitLoop hc 0 ms with
  | .error e => (hw1, .error e)
  | .ok _ => (hw1.setCore c.idx { hc with halted := true }, .ok ())

/-- Modelled from the spec: `Core::clear_all_hw_breakpoints` on one core —
invoke the hardware clear; on success every hardware breakpoint of that
core is inactive. -/
def hwClearBreakpoints (hw : Hw) (c : Core) : Hw × Except Error Unit :=
  let hc := hw.cores c.idx
  let hw1 := { hw with trace := hw.trace ++ [.clearBp c.idx] }
  match hc.clear_res with
  | .error e => (hw1, .error e)
  | .ok _ => (hw1.setCore c.idx { hc with breakpoints := 0 }, .ok ())

/-- Modelled from the spec: `Probe::target_reset_deassert` — release the
physical reset line via the transport. -/
def probeResetDeassert (probe : ProbeB) (hw : Hw) : Hw × Except Error Unit :=
  ({ hw with trace := hw.trace ++ [.resetDeassert] }, probe.reset_deassert_res)

/-- The Session (`session.rs:18-24`): owner of the target descriptor, the
transport handle, the architecture interface state, and the per-core
table. -/
structure Session where
  target : Target
  probe : ProbeB
  interface_state : ArchitectureInterfaceState
  cores : List (SpecificCoreState × CoreState)
deriving DecidableEq, Repr

/-- `Session::core` (`session.rs:149-157`): bounds-check the index, failing
with `CoreNotFound(n)` out of range, else delegate to the architecture
interface state's attach with the transport and the addressed entry. -/
def Session.core (s : Session) (n : Nat) : Except Error Core :=
  match s.cores.get? n with
  | none => .error (.CoreNotFound n)
  | some (core, core_state) =>
      s.interface_state.attach s.probe core core_state n

/-- `Session::list_cores` (`session.rs:140-146`): the per-core table, mapped
to core types and enumerated with indices. -/
def Session.list_cores (s : Session) : List (Nat × CoreType) :=
  (s.cores.map (fun e => e.1.toCoreType)).enum

/-- `Session::flash_algorithms` (`session.rs:160-162`). -/
def Session.flash_algorithms (s : Session) : List RawFlashAlgorithm :=
  s.target.flash_algorithms

/-- `Session::memory_map` (`session.rs:165-167`). -/
def Session.memory_map (s : Session) : List MemoryRegion :=
  s.target.memory_map

/-- `Session::architecture` (`session.rs:170-175`). -/
def Session.architecture (s : Session) : Architecture :=
  match s.interface_state with
  | .Arm _ => .Arm
  | .Riscv _ => .Riscv

/-- The iteration of `Session::clear_all_hw_breakpoints` over a list of core
indices: attach to each core and clear its breakpoints, stopping at the
first failure (the `collect::<Result<_, _>>` short-circuits; clears already
performed keep their effect). -/
def clearLoop (s : Session) (hw : Hw) : List Nat → Hw × Except Error Unit
  | [] => (hw, .ok ())
  | n :: rest =>
    match s.core n with
    | .error e => (hw, .error e)
    | .ok c =>
      match hwClearBreakpoints hw c with
      | (hw1, .error e) => (hw1, .error e)
      | (hw1, .ok _) => clearLoop s hw1 rest

/-- `Session::clear_all_hw_breakpoints` (`session.rs:178-186`): iterate
every core index in order. -/
def Session.clear_all_hw_breakpoints (s : Session) (hw : Hw) :
    Hw × Except Error Unit :=
  clearLoop s hw (List.range s.cores.length)

/-- The reset-under-debug block of `Session::new` (`session.rs:104-120`):
enable debug mode on core 0, arm the reset catch on core 0, deassert the
reset line via the transport, wait (bounded, 100 ms) for core 0 to halt,
clear the reset catch; each step re-attaches to core 0 exactly as the
source does, and the first failure aborts the sequence with that error. -/
def underResetSequence (s : Session) (hw : Hw) : Hw × Except Error Unit :=
  match s.core 0 with
  | .error e => (hw, .error e)
  | .ok c0 =>
    match hwDebugCoreStart hw c0 with
    | (hw1, .error e) => (hw1, .error e)
    | (hw1, .ok _) =>
      match s.core 0 with
      | .error e => (hw1, .error e)
      | .ok c1 =>
        match hwResetCatchSet hw1 c1 with
        | (hw2, .error e) => (hw2, .error e)
        | (hw2, .ok _) =>
          match probeResetDeassert s.probe hw2 with
          | (hw3, .error e) => (hw3, .error e)
          | (hw3, .ok _) =>
            match s.core 0 with
            | .error e => (hw3, .error e)
            | .ok c2 =>
              match hwWaitForCoreHalted hw3 c2 100 with
              | (hw4, .error e) => (hw4, .error e)
              | (hw4, .ok _) =>
                match hwResetCatchClear hw4 c2 with
                | (hw5, .error e) => (hw5, .error e)
                | (hw5, .ok _) => (hw5, .ok ())

/-- The architecture interface state `Session::new` builds for a resolved
target (`session.rs:74-95`): the variant matching the target's declared
architecture. -/
def interfaceStateFor (target : Target) : ArchitectureInterfaceState :=
  match target.architecture with
  | .Arm => .Arm ArmCommunicationInterfaceState.new
  | .Riscv => .Riscv RiscvCommunicationInterfaceState.new

/-- The single per-core entry `Session::new` allocates (`session.rs:74-95`,
`vec![core]`): the specific core state from the target's core type plus a
fresh `CoreState`; both architecture arms of the source build the same
entry. -/
def coreEntryFor (target : Target) : SpecificCoreState × CoreState :=
  match target.architecture with
  | .Arm => (SpecificCoreState.from_core_type target.core_type,
      Core.create_state)
  | .Riscv => (SpecificCoreState.from_core_type target.core_type,
      Core.create_state)

/-- The session record `Session::new` assembles (`session.rs:97-102`). -/
def mkSession (probe : ProbeB) (target : Target) : Session :=
  { target := target, probe := probe,
    interface_state := interfaceStateFor target,
    cores := [coreEntryFor target] }

/-- `Session::new` (`session.rs:65-125`): resolve the target through the
selector, build the matching architecture interface state together with the
single core entry (`vec![core]`), run the reset-under-debug sequence when
the attach method is `UnderReset`, then clear all hardware breakpoints; any
failing step aborts construction, returns that failure, and no session is
produced. -/
def Session.new (probe : ProbeB) (reg : Registry) (sel : TargetSelector)
    (attach_method : AttachMethod) (hw : Hw) : Hw × Except Error Session :=
  match (get_target_from_selector sel probe reg).2 with
  | .error e => (hw, .error e)
  | .ok target =>
    match attach_method with
    | .UnderReset =>
      match underResetSequence (mkSession probe target) hw with
      | (hw1, .error e) => (hw1, .error e)
      | (hw1, .ok _) =>
        match (mkSession probe target).clear_all_hw_breakpoints hw1 with
        | (hw2, .error e) => (hw2, .error e)
        | (hw2, .ok _) => (hw2, .ok (mkSession probe target))
    | .Normal =>
      match (mkSession probe target).clear_all_hw_breakpoints hw with
      | (hw1, .error e) => (hw1, .error e)
      | (hw1, .ok _) => (hw1, .ok (mkSession probe target))

/-- The warning diagnostic emitted by the `Drop` implementation. -/
def dropWarning (e : Error) : String :=
  "Could not clear all hardware breakpoints: " ++ reprStr e

/-- `impl Drop for Session` (`session.rs:204-210`): best-effort breakpoint
clear on destruction; a failure is converted into a warning diagnostic and
swallowed — the destructor returns no error. -/
def Session.dropSession (s : Session) (hw : Hw) : Hw × Option String :=
  match s.clear_all_hw_breakpoints hw with
  | (hw1, .error e) => (hw1, some (dropWarning e))
  | (hw1, .ok _) => (hw1, none)

/-- A computation that either returns a value or panics; models a Rust
panic in total Lean. -/
inductive PanicOr (α : Type) where
  | panicked (msg : String)
  | returned (a : α)

/-- Modelled from the spec: one entry of the probe enumeration returned by
`Probe::list_all()`; its `open()` yields a transport handle or an error. -/
structure ProbeDescr where
  open_res : Except Error ProbeB

/-- `Session::auto_attach` (`session.rs:128-137`): index the first element
of the probe enumeration — unguarded, so an empty enumeration panics rather
than producing a failure value — then open it and attach (`Probe::attach`
delegates to `Session::new` with the default `Normal` attach method, per
the spec's description of this convenience path). -/
def Session.auto_attach (probes : List ProbeDescr) (reg : Registry)
    (sel : TargetSelector) (hw : Hw) : PanicOr (Hw × Except Error Session) :=
  match probes with
  | [] => .panicked "index out of bounds: the len is 0 but the index is 0"
  | d :: _ =>
    match d.open_res with
    | .error e => .returned (hw, .error e)
    | .ok probe => .returned (Session.new probe reg sel .Normal hw)

/-! ## Helper lemmas and concrete fixtures -/

theorem Hw.setCore_cores_self (hw : Hw) (n : Nat) (c : HwCore) :
    (hw.setCore n c).cores n = c := by
  simp [Hw.setCore]

theorem Hw.setCore_cores_ne (hw : Hw) (n : Nat) (c : HwCore) (m : Nat)
    (h : m ≠ n) : (hw.setCore n c).cores m = hw.cores m := by
  simp [Hw.setCore, h]

theorem Hw.setCore_trace (hw : Hw) (n : Nat) (c : HwCore) :
    (hw.setCore n c).trace = hw.trace := rfl

/-- An ARM target fixture. -/
def tgtArm : Target := ⟨"nrf52", .M4, [], []⟩

/-- A RISC-V target fixture. -/
def tgtRiscv : Target := ⟨"fe310", .Riscv, [], []⟩

/-- An ARM interface whose ROM-table scan finds an identity. -/
def armOkIface : ArmIfaceB := ⟨.ok (some ⟨0x244, 0x6⟩)⟩

/-- A transport with a ready ARM (DAP) interface and no JTAG. -/
def probeArm : ProbeB := ⟨.ok (some armOkIface), .ok none, false, .ok ()⟩

/-- A transport with no DAP interface at all. -/
def probeNoDap : ProbeB := ⟨.ok none, .ok none, false, .ok ()⟩

/-- An empty registry. -/
def regEmpty : Registry := ⟨[], fun _ => .error .ChipAutodetectFailed⟩

/-- A registry knowing `tgtArm` by name and by any chip identity. -/
def regNRF : Registry := ⟨[("nrf52", tgtArm)], fun _ => .ok tgtArm⟩

/-- A hardware core on which every operation succeeds and which halts at the
first poll instant. -/
def hcGood : HwCore :=
  ⟨.ok (), .ok (), .ok (), some 0, .ok (), false, false, false, 2⟩

/-- Simulated silicon of well-behaved cores, empty trace. -/
def hwGood : Hw := ⟨fun _ => hcGood, []⟩

/-- Simulated silicon whose cores never report halted. -/
def hwNever : Hw := ⟨fun _ => { hcGood with halts_at := none }, []⟩

/-- An ARM session over `probeArm`, as `Session::new` builds it for
`tgtArm`. -/
def sessArm : Session :=
  ⟨tgtArm, probeArm, .Arm {}, [(.M4, {})]⟩

/-- An ARM session over a transport without a DAP interface. -/
def sessNoDap : Session :=
  ⟨tgtArm, probeNoDap, .Arm {}, [(.M4, {})]⟩

/-! ## C10 — auto_attach on an empty probe enumeration panics -/

/-- C10: when the probe enumeration is empty, `auto_attach` does not return
an error value: the unguarded index of the first element panics, so the
call never produces a `returned` result at all. -/
theorem c10_auto_attach_empty_panics (reg : Registry) (sel : TargetSelector)
    (hw : Hw) :
    Session.auto_attach [] reg sel hw =
      .panicked "index out of bounds: the len is 0 but the index is 0" ∧
    ∀ r : Hw × Except Error Session,
      Session.auto_attach [] reg sel hw ≠ .returned r := by
  constructor
  · rfl
  · intro r h
    simp [Session.auto_attach] at h

/-! ## C9 — Specified / Unspecified selector forms -/

/-- C9: `Specified(Target)` resolves verbatim to that target;
`Unspecified(name)` performs the registry lookup by name, failing with
`ChipNotFound(NameNotFound)` when the name is absent from the registry and
resolving to the looked-up target when present. -/
theorem c9_specified_unspecified (probe : ProbeB) (reg : Registry) :
    (∀ t : Target,
      (get_target_from_selector (.Specified t) probe reg).2 = .ok t) ∧
    (∀ name : String, reg.names.lookup name = none →
      (get_target_from_selector (.Unspecified name) probe reg).2 =
        .error (.ChipNotFound .NameNotFound)) ∧
    (∀ name t, reg.names.lookup name = some t →
      (get_target_from_selector (.Unspecified name) probe reg).2 = .ok t) := by
  refine ⟨fun t => rfl, fun name h => ?_, fun name t h => ?_⟩ <;>
    simp [get_target_from_selector, Registry.get_target_by_name, h]

/-- Witness for C9 at the concrete registry `regNRF`. -/
theorem c9_witness :
    (get_target_from_selector (.Specified tgtRiscv) probeArm regNRF).2 =
      .ok tgtRiscv ∧
    (get_target_from_selector (.Unspecified "unknown") probeArm regNRF).2 =
      .error (.ChipNotFound .NameNotFound) ∧
    (get_target_from_selector (.Unspecified "nrf52") probeArm regNRF).2 =
      .ok tgtArm :=
  ⟨(c9_specified_unspecified probeArm regNRF).1 tgtRiscv,
    (c9_specified_unspecified probeArm regNRF).2.1 "unknown" (by decide),
    (c9_specified_unspecified probeArm regNRF).2.2 "nrf52" tgtArm (by decide)⟩

/-! ## C8 — Session destruction swallows clear failures -/

/-- C8: destroying a session performs exactly the best-effort breakpoint
clear (same hardware effect), and a failing clear is reported only as a
warning diagnostic — the destructor never yields an error; a succeeding
clear yields no diagnostic. -/
theorem c8_drop_swallows_clear_failure (s : Session) (hw : Hw) :
    (s.dropSession hw).1 = (s.clear_all_hw_breakpoints hw).1 ∧
    (∀ e, (s.clear_all_hw_breakpoints hw).2 = .error e →
      (s.dropSession hw).2 = some (dropWarning e)) ∧
    ((s.clear_all_hw_breakpoints hw).2 = .ok () →
      (s.dropSession hw).2 = none) := by
  unfold Session.dropSession
  rcases h : s.clear_all_hw_breakpoints hw with ⟨hw1, r⟩
  cases r <;> simp_all

/-- Witness for C8: a session whose internal clear fails (no DAP interface)
produces only the diagnostic; a session whose clear succeeds produces
none. -/
theorem c8_witness :
    (sessNoDap.dropSession hwGood).2 =
      some (dropWarning (.Other "No DAP interface available on probe")) ∧
    (sessArm.dropSession hwGood).2 = none :=
  ⟨(c8_drop_swallows_clear_failure sessNoDap hwGood).2.1 _ rfl,
    (c8_drop_swallows_clear_failure sessArm hwGood).2.2 rfl⟩

/-- Both arms of the entry construction coincide. -/
theorem coreEntryFor_eq (t : Target) :
    coreEntryFor t =
      (SpecificCoreState.from_core_type t.core_type, Core.create_state) := by
  unfold coreEntryFor
  split <;> rfl

/-- The core-type / specific-core-state round trip. -/
theorem toCoreType_from_core_type (ct : CoreType) :
    (SpecificCoreState.from_core_type ct).toCoreType = ct := by
  cases ct <;> rfl

/-- Inversion of a successful `Session::new`: the target was resolved from
the selector and the session is exactly the assembled record. -/
theorem new_ok_inversion (probe : ProbeB) (reg : Registry)
    (sel : TargetSelector) (am : AttachMethod) (hw hw1 : Hw) (s : Session)
    (h : Session.new probe reg sel am hw = (hw1, .ok s)) :
    ∃ target, (get_target_from_selector sel probe reg).2 = .ok target ∧
      s = mkSession probe target := by
  unfold Session.new at h
  rcases hres : (get_target_from_selector sel probe reg).2 with e | target <;>
    simp only [hres] at h
  · simp at h
  · refine ⟨target, rfl, ?_⟩
    cases am <;> simp only [] at h
    · rcases hclr : (mkSession probe target).clear_all_hw_breakpoints hw
        with ⟨hw2, r⟩
      simp only [hclr] at h
      cases r <;> simp_all
    · rcases hur : underResetSequence (mkSession probe target) hw
        with ⟨hwa, ra⟩
      simp only [hur] at h
      cases ra with
      | error e => simp_all
      | ok _ =>
        rcases hclr : (mkSession probe target).clear_all_hw_breakpoints hwa
          with ⟨hw2, r⟩
        simp only [hclr] at h
        cases r <;> simp_all

theorem mkSession_architecture (probe : ProbeB) (target : Target) :
    (mkSession probe target).architecture = target.architecture := by
  unfold mkSession Session.architecture interfaceStateFor
  rcases h : target.architecture <;> simp [h]

theorem mkSession_toArchitecture (probe : ProbeB) (target : Target) :
    (mkSession probe target).interface_state.toArchitecture =
      target.architecture := by
  unfold mkSession interfaceStateFor ArchitectureInterfaceState.toArchitecture
  rcases h : target.architecture <;> simp [h]

/-! ## C7 — architecture() equals the resolved target's architecture -/

/-- C7: every session produced by `Session::new`, under any selector form
(Specified, Unspecified, Auto), reports `architecture()` equal to the
architecture encoded in its resolved target; the interface-state variant
(read through the source's `From` conversion) agrees with it.  The variant
is fixed by the construction — no operation of the module returns a
session with a different one. -/
theorem c7_architecture_invariant (probe : ProbeB) (reg : Registry)
    (sel : TargetSelector) (am : AttachMethod) (hw hw1 : Hw) (s : Session)
    (h : Session.new probe reg sel am hw = (hw1, .ok s)) :
    s.architecture = s.target.architecture ∧
    s.interface_state.toArchitecture = s.target.architecture ∧
    (get_target_from_selector sel probe reg).2 = .ok s.target := by
  obtain ⟨target, hres, hs⟩ := new_ok_inversion probe reg sel am hw hw1 s h
  subst hs
  exact ⟨mkSession_architecture probe target,
    mkSession_toArchitecture probe target, hres⟩

/-- Witness for C7: a session autodetected over an ARM transport. -/
theorem c7_witness :
    (mkSession probeArm tgtArm).architecture =
      (mkSession probeArm tgtArm).target.architecture ∧
    (mkSession probeArm tgtArm).interface_state.toArchitecture =
      (mkSession probeArm tgtArm).target.architecture ∧
    (get_target_from_selector .Auto probeArm regNRF).2 =
      .ok (mkSession probeArm tgtArm).target :=
  c7_architecture_invariant probeArm regNRF .Auto .Normal hwGood
    (Session.new probeArm regNRF .Auto .Normal hwGood).1
    (mkSession probeArm tgtArm) rfl

/-! ## C4 — per-core entries are 1:1 with the declared cores -/

/-- C4: `Session::new` creates the per-core table 1:1 with the cores its
resolved target declares (exactly one in this snapshot, named by the
`core_type` field): the table's length equals the declared count and
`list_cores` enumerates precisely the declared cores with indices from 0.
No operation of the module returns a modified table, so it is never
resized after construction. -/
theorem c4_core_table_one_to_one (probe : ProbeB) (reg : Registry)
    (sel : TargetSelector) (am : AttachMethod) (hw hw1 : Hw) (s : Session)
    (h : Session.new probe reg sel am hw = (hw1, .ok s)) :
    s.cores.length = s.target.declaredCores.length ∧
    s.list_cores = s.target.declaredCores.enum := by
  obtain ⟨target, hres, hs⟩ := new_ok_inversion probe reg sel am hw hw1 s h
  subst hs
  constructor
  · rfl
  · show (mkSession probe target).list_cores = target.declaredCores.enum
    simp [Session.list_cores, mkSession, coreEntryFor_eq,
      toCoreType_from_core_type, Target.declaredCores]

/-- Witness for C4 at a concrete construction. -/
theorem c4_witness :
    (mkSession probeArm tgtArm).cores.length =
      (mkSession probeArm tgtArm).target.declaredCores.length ∧
    (mkSession probeArm tgtArm).list_cores =
      (mkSession probeArm tgtArm).target.declaredCores.enum :=
  c4_core_table_one_to_one probeArm regNRF .Auto .Normal hwGood
    (Session.new probeArm regNRF .Auto .Normal hwGood).1
    (mkSession probeArm tgtArm) rfl

/-! ## C5 — core(n): bounds check and delegation to attach -/

/-- The architecture interface matching the session's interface-state
variant is present (ready) on the transport. -/
def matchingInterfacePresent (s : Session) : Prop :=
  match s.interface_state with
  | .Arm _ => ∃ i, s.probe.arm_interface = .ok (some i)
  | .Riscv _ => ∃ i, s.probe.riscv_interface = .ok (some i)

/-- C5: `core(n)` fails with `CoreNotFound(n)` for every index at or beyond
the session's core count; for an index within the count it delegates to the
architecture interface state's attach on the transport handle and the
addressed core entry, succeeding iff the matching architecture interface is
present on the transport. -/
theorem c5_core_lookup (s : Session) (n : Nat) :
    (s.cores.length ≤ n → s.core n = .error (.CoreNotFound n)) ∧
    (∀ entry, s.cores.get? n = some entry →
      s.core n = s.interface_state.attach s.probe entry.1 entry.2 n ∧
      ((∃ c, s.core n = .ok c) ↔ matchingInterfacePresent s)) := by
  constructor
  · intro hn
    unfold Session.core
    rw [List.get?_eq_none.mpr hn]
  · intro entry hget
    have hdel : s.core n =
        s.interface_state.attach s.probe entry.1 entry.2 n := by
      unfold Session.core
      rw [hget]
    refine ⟨hdel, ?_⟩
    rw [hdel]
    unfold ArchitectureInterfaceState.attach matchingInterfacePresent
    rcases hist : s.interface_state with st | st <;> simp only
    · rcases harm : s.probe.arm_interface with e | oi
      · simp [harm]
      · rcases oi with _ | i <;> simp [harm, SpecificCoreState.attach_arm]
    · rcases hr : s.probe.riscv_interface with e | oi
      · simp [hr]
      · rcases oi with _ | i <;> simp [hr, SpecificCoreState.attach_riscv]

/-- Witness for C5: out-of-range index 5 on a one-core session fails with
`CoreNotFound(5)`; in-range index 0 attaches successfully over a transport
with a ready DAP interface. -/
theorem c5_witness :
    sessArm.core 5 = .error (.CoreNotFound 5) ∧
    ∃ c, sessArm.core 0 = .ok c :=
  ⟨(c5_core_lookup sessArm 5).1 (by decide),
    ((c5_core_lookup sessArm 0).2 (.M4, ⟨⟩) rfl).2.mpr ⟨armOkIface, rfl⟩⟩

/-! ## C2 / C6 — the Auto autodetection algorithm -/

/-- The chip identity the ARM scan yields: the ROM-table read's result with
scan errors downgraded to `none`, wrapped into `ChipInfo`. -/
def armScanIdentity (ai : ArmIfaceB) : Option ChipInfo :=
  match ai.rom_table with
  | .error _ => none
  | .ok found => found.map ChipInfo.Arm

theorem try_arm_autodetect_eq (ai : ArmIfaceB) :
    try_arm_autodetect ai = ([.romScan], .ok (armScanIdentity ai)) := by
  unfold try_arm_autodetect armScanIdentity
  rcases h : ai.rom_table <;> simp

theorem armScanIdentity_of_scan_error (ai : ArmIfaceB) (msg : String)
    (h : ai.rom_table = .error msg) : armScanIdentity ai = none := by
  unfold armScanIdentity
  rw [h]

/-- Auto resolution when the ARM constructor returns a hard error: the
error propagates and nothing else is consulted. -/
theorem auto_hard_arm_error (probe : ProbeB) (reg : Registry) (e : Error)
    (harm : probe.arm_interface = .error e) :
    get_target_from_selector .Auto probe reg = ([.armNew], .error e) := by
  unfold get_target_from_selector
  simp [harm]

/-- Auto resolution when the ARM scan yields an identity: the RISC-V path is
skipped and the identity is resolved through the registry. -/
theorem auto_identity_found (probe : ProbeB) (reg : Registry) (ai : ArmIfaceB)
    (chip : ChipInfo) (harm : probe.arm_interface = .ok (some ai))
    (hid : armScanIdentity ai = some chip) :
    get_target_from_selector .Auto probe reg =
      ([.armNew, .romScan, .regByChip chip],
        match reg.get_target_by_chip_info chip with
        | .error e => .error (.ChipNotFound e)
        | .ok t => .ok t) := by
  unfold get_target_from_selector
  simp [harm, try_arm_autodetect_eq, hid]

/-- Auto resolution, no identity, no JTAG interface reported. -/
theorem auto_none_no_jtag (probe : ProbeB) (reg : Registry) (ai : ArmIfaceB)
    (harm : probe.arm_interface = .ok (some ai))
    (hid : armScanIdentity ai = none)
    (hjtag : probe.has_jtag_interface = false) :
    get_target_from_selector .Auto probe reg =
      ([.armNew, .romScan], .error (.ChipNotFound .ChipAutodetectFailed)) := by
  unfold get_target_from_selector
  simp [harm, try_arm_autodetect_eq, hid, hjtag]

/-- Auto resolution, no identity, JTAG present but the RISC-V interface is
absent. -/
theorem auto_none_jtag_absent (probe : ProbeB) (reg : Registry)
    (ai : ArmIfaceB) (harm : probe.arm_interface = .ok (some ai))
    (hid : armScanIdentity ai = none)
    (hjtag : probe.has_jtag_interface = true)
    (hri : probe.riscv_interface = .ok none) :
    get_target_from_selector .Auto probe reg =
      ([.armNew, .romScan, .riscvNew],
        .error (.ChipNotFound .ChipAutodetectFailed)) := by
  unfold get_target_from_selector
  simp [harm, try_arm_autodetect_eq, hid, hjtag, hri]

/-- Auto resolution, no identity, JTAG present and a ready RISC-V
interface: the ID code is read (and only logged), then resolution fails
with the autodetect-failed error. -/
theorem auto_none_jtag_riscv (probe : ProbeB) (reg : Registry)
    (ai : ArmIfaceB) (i : RiscvIfaceB)
    (harm : probe.arm_interface = .ok (some ai))
    (hid : armScanIdentity ai = none)
    (hjtag : probe.has_jtag_interface = true)
    (hri : probe.riscv_interface = .ok (some i)) :
    get_target_from_selector .Auto probe reg =
      ([.armNew, .romScan, .riscvNew, .readIdcode i.idcode],
        .error (.ChipNotFound .ChipAutodetectFailed)) := by
  unfold get_target_from_selector
  simp [harm, try_arm_autodetect_eq, hid, hjtag, hri]

/-- Auto resolution, no identity, JTAG present but the RISC-V constructor
returns a hard error: that error propagates. -/
theorem auto_none_jtag_riscv_error (probe : ProbeB) (reg : Registry)
    (ai : ArmIfaceB) (e : Error)
    (harm : probe.arm_interface = .ok (some ai))
    (hid : armScanIdentity ai = none)
    (hjtag : probe.has_jtag_interface = true)
    (hri : probe.riscv_interface = .error e) :
    get_target_from_selector .Auto probe reg =
      ([.armNew, .romScan, .riscvNew], .error e) := by
  unfold get_target_from_selector
  simp [harm, try_arm_autodetect_eq, hid, hjtag, hri]

/-- Auto resolution when the DAP interface is absent and no JTAG is
reported: the ARM step is skipped without error and resolution fails with
the autodetect-failed error. -/
theorem auto_absent_no_jtag (probe : ProbeB) (reg : Registry)
    (harm : probe.arm_interface = .ok none)
    (hjtag : probe.has_jtag_interface = false) :
    get_target_from_selector .Auto probe reg =
      ([.armNew], .error (.ChipNotFound .ChipAutodetectFailed)) := by
  unfold get_target_from_selector
  simp [harm, hjtag]

/-- Auto resolution, DAP absent, JTAG reported but the RISC-V interface is
absent. -/
theorem auto_absent_jtag_absent (probe : ProbeB) (reg : Registry)
    (harm : probe.arm_interface = .ok none)
    (hjtag : probe.has_jtag_interface = true)
    (hri : probe.riscv_interface = .ok none) :
    get_target_from_selector .Auto probe reg =
      ([.armNew, .riscvNew],
        .error (.ChipNotFound .ChipAutodetectFailed)) := by
  unfold get_target_from_selector
  simp [harm, hjtag, hri]

/-- Auto resolution, DAP absent, JTAG reported with a ready RISC-V
interface: the ARM step is skipped without error, the ID code is read (and
only logged), and resolution fails with the autodetect-failed error. -/
theorem auto_absent_jtag_riscv (probe : ProbeB) (reg : Registry)
    (i : RiscvIfaceB) (harm : probe.arm_interface = .ok none)
    (hjtag : probe.has_jtag_interface = true)
    (hri : probe.riscv_interface = .ok (some i)) :
    get_target_from_selector .Auto probe reg =
      ([.armNew, .riscvNew, .readIdcode i.idcode],
        .error (.ChipNotFound .ChipAutodetectFailed)) := by
  unfold get_target_from_selector
  simp [harm, hjtag, hri]

/-- Auto resolution, DAP absent, JTAG reported but the RISC-V constructor
returns a hard error: that error propagates. -/
theorem auto_absent_jtag_riscv_error (probe : ProbeB) (reg : Registry)
    (e : Error) (harm : probe.arm_interface = .ok none)
    (hjtag : probe.has_jtag_interface = true)
    (hri : probe.riscv_interface = .error e) :
    get_target_from_selector .Auto probe reg =
      ([.armNew, .riscvNew], .error e) := by
  unfold get_target_from_selector
  simp [harm, hjtag, hri]

/-- The chip identity the ARM autodetection step of Auto resolution yields:
none when the DAP interface is absent (the step is skipped without error),
else the ROM-table scan's downgraded result. -/
def armIdentityOf : Option ArmIfaceB → Option ChipInfo
  | none => none
  | some ai => armScanIdentity ai

/-- C2: whenever the ARM communication-interface constructor returns
(interface present or absent — both outcomes in the claim's scope), Auto
resolution first attempts the ARM step; with the interface available it
scans the ROM table and treats a scan error as "not identified" —
resolution continues and (absent a hard transport error on the fallback)
fails with `ChipNotFound(ChipAutodetectFailed)`, not with the scan
failure; the RISC-V path is consulted exactly when no ARM identity was
obtained (absent interface, or empty/failed scan) and the transport
reports a JTAG interface; a found identity is resolved through the
registry's lookup-by-chip-identity; and with no identity obtained,
resolution fails with `ChipNotFound(ChipAutodetectFailed)`. -/
theorem c2_auto_algorithm (probe : ProbeB) (reg : Registry)
    (armIface : Option ArmIfaceB)
    (harm : probe.arm_interface = .ok armIface) :
    (∀ ai msg, armIface = some ai → ai.rom_table = .error msg →
      (probe.has_jtag_interface = false ∨
        ∃ r, probe.riscv_interface = .ok r) →
      (get_target_from_selector .Auto probe reg).2 =
        .error (.ChipNotFound .ChipAutodetectFailed)) ∧
    (REvent.riscvNew ∈ (get_target_from_selector .Auto probe reg).1 ↔
      (armIdentityOf armIface = none ∧ probe.has_jtag_interface = true)) ∧
    (∀ chip, armIdentityOf armIface = some chip →
      (get_target_from_selector .Auto probe reg).2 =
        (match reg.get_target_by_chip_info chip with
          | .error e => .error (.ChipNotFound e)
          | .ok t => .ok t) ∧
      REvent.riscvNew ∉ (get_target_from_selector .Auto probe reg).1) ∧
    (armIdentityOf armIface = none →
      (probe.has_jtag_interface = false ∨
        ∃ r, probe.riscv_interface = .ok r) →
      (get_target_from_selector .Auto probe reg).2 =
        .error (.ChipNotFound .ChipAutodetectFailed)) := by
  rcases armIface with _ | ai
  · have hd : (probe.has_jtag_interface = false ∨
          ∃ r, probe.riscv_interface = .ok r) →
        (get_target_from_selector .Auto probe reg).2 =
          .error (.ChipNotFound .ChipAutodetectFailed) := by
      intro hr
      rcases hjtag : probe.has_jtag_interface with _ | _
      · simp [auto_absent_no_jtag probe reg harm hjtag]
      · rcases hr with hfalse | ⟨r, hri⟩
        · rw [hjtag] at hfalse
          simp at hfalse
        · rcases r with _ | i
          · simp [auto_absent_jtag_absent probe reg harm hjtag hri]
          · simp [auto_absent_jtag_riscv probe reg i harm hjtag hri]
    refine ⟨fun ai msg hcontra => by simp at hcontra,
      ?_, fun chip hcontra => by simp [armIdentityOf] at hcontra,
      fun _ => hd⟩
    rcases hjtag : probe.has_jtag_interface with _ | _
    · simp [auto_absent_no_jtag probe reg harm hjtag, armIdentityOf, hjtag]
    · rcases hri : probe.riscv_interface with e | r
      · simp [auto_absent_jtag_riscv_error probe reg e harm hjtag hri,
          armIdentityOf, hjtag]
      · rcases r with _ | i
        · simp [auto_absent_jtag_absent probe reg harm hjtag hri,
            armIdentityOf, hjtag]
        · simp [auto_absent_jtag_riscv probe reg i harm hjtag hri,
            armIdentityOf, hjtag]
  · have hd : armScanIdentity ai = none →
        (probe.has_jtag_interface = false ∨
          ∃ r, probe.riscv_interface = .ok r) →
        (get_target_from_selector .Auto probe reg).2 =
          .error (.ChipNotFound .ChipAutodetectFailed) := by
      intro hid hr
      rcases hjtag : probe.has_jtag_interface with _ | _
      · simp [auto_none_no_jtag probe reg ai harm hid hjtag]
      · rcases hr with hfalse | ⟨r, hri⟩
        · rw [hjtag] at hfalse
          simp at hfalse
        · rcases r with _ | i
          · simp [auto_none_jtag_absent probe reg ai harm hid hjtag hri]
          · simp [auto_none_jtag_riscv probe reg ai i harm hid hjtag hri]
    have hb : REvent.riscvNew ∈
          (get_target_from_selector .Auto probe reg).1 ↔
        (armScanIdentity ai = none ∧ probe.has_jtag_interface = true) := by
      rcases hid : armScanIdentity ai with _ | chip
      · rcases hjtag : probe.has_jtag_interface with _ | _
        · simp [auto_none_no_jtag probe reg ai harm hid hjtag, hjtag]
        · rcases hri : probe.riscv_interface with e | r
          · simp [auto_none_jtag_riscv_error probe reg ai e harm hid hjtag
              hri, hjtag]
          · rcases r with _ | i
            · simp [auto_none_jtag_absent probe reg ai harm hid hjtag hri,
                hjtag]
            · simp [auto_none_jtag_riscv probe reg ai i harm hid hjtag hri,
                hjtag]
      · simp [auto_identity_found probe reg ai chip harm hid, hid]
    have hc : ∀ chip, armScanIdentity ai = some chip →
        (get_target_from_selector .Auto probe reg).2 =
          (match reg.get_target_by_chip_info chip with
            | .error e => .error (.ChipNotFound e)
            | .ok t => .ok t) ∧
        REvent.riscvNew ∉ (get_target_from_selector .Auto probe reg).1 := by
      intro chip hid
      rw [auto_identity_found probe reg ai chip harm hid]
      exact ⟨rfl, by simp⟩
    refine ⟨?_, ?_, ?_, ?_⟩
    · intro ai2 msg heq hscan hr
      injection heq with heq2
      subst heq2
      exact hd (armScanIdentity_of_scan_error ai msg hscan) hr
    · simpa [armIdentityOf] using hb
    · simpa [armIdentityOf] using hc
    · simpa [armIdentityOf] using hd

/-- An ARM interface whose ROM-table scan fails with a protocol error. -/
def scanErrIface : ArmIfaceB := ⟨.error "scan fault"⟩

/-- A transport with a ready ARM interface whose scan errors, no JTAG. -/
def probeScanErr : ProbeB := ⟨.ok (some scanErrIface), .ok none, false, .ok ()⟩

/-- A RISC-V-only transport: no DAP interface, JTAG reported, ready RISC-V
interface. -/
def probeRiscvOnly : ProbeB := ⟨.ok none, .ok (some ⟨0x1234⟩), true, .ok ()⟩

/-- Witness for C2: an identified ARM chip resolves through the registry
with the RISC-V path untouched; a failed scan is downgraded and resolution
fails with `ChipNotFound(ChipAutodetectFailed)`; and on a RISC-V-only
transport (no DAP interface, JTAG present) the ARM step is skipped without
error, the RISC-V path is attempted, and resolution fails with
`ChipNotFound(ChipAutodetectFailed)`. -/
theorem c2_witness :
    ((get_target_from_selector .Auto probeArm regNRF).2 =
        (match regNRF.get_target_by_chip_info (.Arm ⟨0x244, 0x6⟩) with
          | .error e => .error (.ChipNotFound e)
          | .ok t => .ok t) ∧
      REvent.riscvNew ∉ (get_target_from_selector .Auto probeArm regNRF).1) ∧
    (get_target_from_selector .Auto probeScanErr regEmpty).2 =
      .error (.ChipNotFound .ChipAutodetectFailed) ∧
    ((get_target_from_selector .Auto probeRiscvOnly regEmpty).2 =
        .error (.ChipNotFound .ChipAutodetectFailed) ∧
      REvent.riscvNew ∈
        (get_target_from_selector .Auto probeRiscvOnly regEmpty).1) :=
  ⟨(c2_auto_algorithm probeArm regNRF (some armOkIface) rfl).2.2.1
      (.Arm ⟨0x244, 0x6⟩) rfl,
    (c2_auto_algorithm probeScanErr regEmpty (some scanErrIface) rfl).1
      scanErrIface "scan fault" rfl rfl (.inl rfl),
    (c2_auto_algorithm probeRiscvOnly regEmpty none rfl).2.2.2 rfl
      (.inr ⟨some ⟨0x1234⟩, rfl⟩),
    (c2_auto_algorithm probeRiscvOnly regEmpty none rfl).2.1.mpr ⟨rfl, rfl⟩⟩

/-- A transport whose ARM-interface construction fails hard while a JTAG
interface with a ready RISC-V interface is present. -/
def probeArmCtorErr : ProbeB :=
  ⟨.error (.Probe "DAP transaction fault"), .ok (some ⟨0x20000913⟩), true,
    .ok ()⟩

/-- C6 counterexample: at this concrete transport an error arising while
probing the ARM architecture (a hard failure of the ARM-interface
constructor) aborts the whole Auto resolution with that error and the
RISC-V path is never attempted — it is not downgraded to a soft "not this
architecture" outcome. -/
theorem c6_counterexample :
    (get_target_from_selector .Auto probeArmCtorErr regEmpty).2 =
      .error (.Probe "DAP transaction fault") ∧
    REvent.riscvNew ∉
      (get_target_from_selector .Auto probeArmCtorErr regEmpty).1 := by
  decide

/-- C6 (amended): errors during an architecture's identification scan are
downgraded to "not identified" and never suppress the other path (a failed
ARM scan with JTAG present still attempts RISC-V); but a hard transport
error from constructing an architecture's communication interface is not
downgraded: it propagates and aborts the whole resolution, suppressing any
later path. -/
theorem c6_amended_probe_errors (probe : ProbeB) (reg : Registry)
    (ai : ArmIfaceB) :
    (∀ msg, probe.arm_interface = .ok (some ai) →
      ai.rom_table = .error msg → probe.has_jtag_interface = true →
      REvent.riscvNew ∈ (get_target_from_selector .Auto probe reg).1) ∧
    (∀ e, probe.arm_interface = .error e →
      get_target_from_selector .Auto probe reg = ([.armNew], .error e)) ∧
    (∀ e, probe.arm_interface = .ok (some ai) → armScanIdentity ai = none →
      probe.has_jtag_interface = true → probe.riscv_interface = .error e →
      (get_target_from_selector .Auto probe reg).2 = .error e) := by
  refine ⟨fun msg harm hscan hjtag => ?_, fun e harm => ?_,
    fun e harm hid hjtag hri => ?_⟩
  · have hid := armScanIdentity_of_scan_error ai msg hscan
    rcases hri : probe.riscv_interface with e | r
    · simp [auto_none_jtag_riscv_error probe reg ai e harm hid hjtag hri]
    · rcases r with _ | i
      · simp [auto_none_jtag_absent probe reg ai harm hid hjtag hri]
      · simp [auto_none_jtag_riscv probe reg ai i harm hid hjtag hri]
  · exact auto_hard_arm_error probe reg e harm
  · simp [auto_none_jtag_riscv_error probe reg ai e harm hid hjtag hri]

/-- A transport whose ARM scan fails while JTAG and RISC-V are ready. -/
def probeScanErrJtag : ProbeB :=
  ⟨.ok (some scanErrIface), .ok (some ⟨0x1234⟩), true, .ok ()⟩

/-- Witness for the amended C6: the failed ARM scan still attempts RISC-V;
the hard ARM-constructor error aborts resolution. -/
theorem c6_witness :
    REvent.riscvNew ∈
      (get_target_from_selector .Auto probeScanErrJtag regEmpty).1 ∧
    get_target_from_selector .Auto probeArmCtorErr regEmpty =
      ([.armNew], .error (.Probe "DAP transaction fault")) :=
  ⟨(c6_amended_probe_errors probeScanErrJtag regEmpty scanErrIface).1
      "scan fault" rfl rfl rfl,
    (c6_amended_probe_errors probeArmCtorErr regEmpty ⟨.ok none⟩).2.1 _ rfl⟩

/-! ## C3 — clear_all_hw_breakpoints clears each core exactly once -/

theorem core_ok_of_present (s : Session) (hp : matchingInterfacePresent s)
    (n : Nat) (hn : n < s.cores.length) : s.core n = .ok ⟨n⟩ := by
  unfold Session.core
  rcases hget : s.cores.get? n with _ | entry
  · rw [List.get?_eq_none] at hget
    omega
  · rcases entry with ⟨score, cstate⟩
    simp only [hget]
    unfold matchingInterfacePresent at hp
    unfold ArchitectureInterfaceState.attach
    rcases hist : s.interface_state with st | st <;> rw [hist] at hp <;>
      obtain ⟨i, hi⟩ := hp
    · simp [hi, SpecificCoreState.attach_arm]
    · simp [hi, SpecificCoreState.attach_riscv]

theorem clearLoop_cons_ok (s : Session) (hw : Hw) (n : Nat) (rest : List Nat)
    (hcore : s.core n = .ok ⟨n⟩) (hcl : (hw.cores n).clear_res = .ok ()) :
    clearLoop s hw (n :: rest) =
      clearLoop s
        (({ hw with trace := hw.trace ++ [Event.clearBp n] }).setCore n
          { hw.cores n with breakpoints := 0 }) rest := by
  conv_lhs => rw [clearLoop]
  simp [hcore, hwClearBreakpoints, hcl]

theorem clearLoop_cons_fail (s : Session) (hw : Hw) (n : Nat)
    (rest : List Nat) (e : Error) (hcore : s.core n = .ok ⟨n⟩)
    (hcl : (hw.cores n).clear_res = .error e) :
    clearLoop s hw (n :: rest) =
      ({ hw with trace := hw.trace ++ [Event.clearBp n] }, .error e) := by
  conv_lhs => rw [clearLoop]
  simp [hcore, hwClearBreakpoints, hcl]

theorem clearLoop_append (s : Session) :
    ∀ (l1 l2 : List Nat) (hw : Hw), (clearLoop s hw l1).2 = .ok () →
      clearLoop s hw (l1 ++ l2) = clearLoop s (clearLoop s hw l1).1 l2 := by
  intro l1
  induction l1 with
  | nil => intro l2 hw _; simp [clearLoop]
  | cons n rest ih =>
    intro l2 hw h
    rcases hcore : s.core n with e | c
    · have hbad : clearLoop s hw (n :: rest) = (hw, .error e) := by
        conv_lhs => rw [clearLoop]
        simp [hcore]
      rw [hbad] at h
      simp at h
    · rcases hres : hwClearBreakpoints hw c with ⟨hw1, r⟩
      rcases r with e | u
      · have hbad : clearLoop s hw (n :: rest) = (hw1, .error e) := by
          conv_lhs => rw [clearLoop]
          simp [hcore, hres]
        rw [hbad] at h
        simp at h
      · have h1 : clearLoop s hw (n :: rest) = clearLoop s hw1 rest := by
          conv_lhs => rw [clearLoop]
          simp [hcore, hres]
        have h2 : clearLoop s hw (n :: (rest ++ l2)) =
            clearLoop s hw1 (rest ++ l2) := by
          conv_lhs => rw [clearLoop]
          simp [hcore, hres]
        rw [List.cons_append, h2, h1]
        exact ih l2 hw1 (by rw [h1] at h; exact h)

theorem clearBp_injective : Function.Injective Event.clearBp := by
  intro a b h
  injection h

theorem clearLoop_all_ok (s : Session) (hp : matchingInterfacePresent s) :
    ∀ (l : List Nat) (hw : Hw), (∀ n ∈ l, n < s.cores.length) →
      (∀ n ∈ l, (hw.cores n).clear_res = .ok ()) →
      (clearLoop s hw l).2 = .ok () ∧
      (clearLoop s hw l).1.trace = hw.trace ++ l.map Event.clearBp ∧
      ∀ m, (clearLoop s hw l).1.cores m =
        if m ∈ l then { hw.cores m with breakpoints := 0 }
        else hw.cores m := by
  intro l
  induction l with
  | nil =>
    intro hw _ _
    simp [clearLoop]
  | cons n rest ih =>
    intro hw hlen hclr
    have hcore := core_ok_of_present s hp n
      (hlen n (List.mem_cons_self n rest))
    have hstep := clearLoop_cons_ok s hw n rest hcore
      (hclr n (List.mem_cons_self n rest))
    set hw1 := ({ hw with trace := hw.trace ++ [Event.clearBp n] }).setCore n
      { hw.cores n with breakpoints := 0 } with hhw1
    have hw1cores : ∀ m, hw1.cores m =
        if m = n then { hw.cores n with breakpoints := 0 }
        else hw.cores m := by
      intro m
      by_cases hmn : m = n
      · subst hmn; simp [hhw1, Hw.setCore]
      · simp [hhw1, Hw.setCore, hmn]
    have hw1trace : hw1.trace = hw.trace ++ [Event.clearBp n] := rfl
    obtain ⟨ih1, ih2, ih3⟩ := ih hw1
      (fun m hm => hlen m (List.mem_cons_of_mem n hm))
      (fun m hm => by
        rw [hw1cores m]
        by_cases hmn : m = n
        · subst hmn
          rw [if_pos rfl]
          exact hclr m (List.mem_cons_self m rest)
        · rw [if_neg hmn]
          exact hclr m (List.mem_cons_of_mem n hm))
    rw [hstep]
    refine ⟨ih1, ?_, ?_⟩
    · rw [ih2, hw1trace]
      simp
    · intro m
      rw [ih3 m, hw1cores m]
      by_cases hmn : m = n
      · subst hmn
        by_cases hmr : m ∈ rest <;> simp [hmr]
      · by_cases hmr : m ∈ rest <;> simp [hmn, hmr]

/-- C3: over a session with k cores (matching interface present, fresh
trace), `clear_all_hw_breakpoints` invokes the hardware clear on each of
the k cores exactly once and zeroes their breakpoints when every clear
succeeds; when the clear for core i fails (all earlier ones succeeding),
the whole call fails with that error, the clears already performed on cores
below i keep their effect (their breakpoints stay cleared — no rollback),
core i's clear was invoked once without effect, and no core above i is
touched. -/
theorem c3_clear_all_each_core_once (s : Session) (hw : Hw)
    (hp : matchingInterfacePresent s) (htr : hw.trace = []) :
    ((∀ n, n < s.cores.length → (hw.cores n).clear_res = .ok ()) →
      (s.clear_all_hw_breakpoints hw).2 = .ok () ∧
      ∀ n, n < s.cores.length →
        List.count (Event.clearBp n)
          (s.clear_all_hw_breakpoints hw).1.trace = 1 ∧
        ((s.clear_all_hw_breakpoints hw).1.cores n).breakpoints = 0) ∧
    (∀ i e, i < s.cores.length →
      (∀ j, j < i → (hw.cores j).clear_res = .ok ()) →
      (hw.cores i).clear_res = .error e →
      (s.clear_all_hw_breakpoints hw).2 = .error e ∧
      (∀ j, j < i →
        List.count (Event.clearBp j)
          (s.clear_all_hw_breakpoints hw).1.trace = 1 ∧
        ((s.clear_all_hw_breakpoints hw).1.cores j).breakpoints = 0) ∧
      List.count (Event.clearBp i)
        (s.clear_all_hw_breakpoints hw).1.trace = 1 ∧
      (s.clear_all_hw_breakpoints hw).1.cores i = hw.cores i ∧
      ∀ j, i < j →
        List.count (Event.clearBp j)
          (s.clear_all_hw_breakpoints hw).1.trace = 0 ∧
        (s.clear_all_hw_breakpoints hw).1.cores j = hw.cores j) := by
  have hmain : s.clear_all_hw_breakpoints hw =
      clearLoop s hw (List.range s.cores.length) := rfl
  constructor
  · intro hok
    obtain ⟨h1, h2, h3⟩ := clearLoop_all_ok s hp (List.range s.cores.length)
      hw (fun n hn => List.mem_range.mp hn)
      (fun n hn => hok n (List.mem_range.mp hn))
    rw [hmain]
    refine ⟨h1, fun n hn => ⟨?_, ?_⟩⟩
    · rw [h2, htr, List.nil_append,
        List.count_map_of_injective _ _ clearBp_injective]
      exact List.count_eq_one_of_mem (List.nodup_range s.cores.length)
        (List.mem_range.mpr hn)
    · rw [h3 n]
      simp [List.mem_range.mpr hn]
  · intro i e hik hpre hfail
    have hsplit : List.range s.cores.length =
        List.range' 0 i ++
          i :: List.range' (i + 1) (s.cores.length - i - 1) := by
      rw [List.range_eq_range']
      have e1 := List.range'_append 0 i (s.cores.length - i) 1
      rw [show 0 + 1 * i = i by omega,
        show s.cores.length - i + i = s.cores.length by omega] at e1
      rw [← e1, show s.cores.length - i = s.cores.length - i - 1 + 1 by omega,
        List.range'_succ]
      simp
    obtain ⟨p1, p2, p3⟩ := clearLoop_all_ok s hp (List.range' 0 i) hw
      (fun n hn => by
        have := List.mem_range'_1.mp hn
        omega)
      (fun n hn => by
        have := List.mem_range'_1.mp hn
        exact hpre n (by omega))
    have happ := clearLoop_append s (List.range' 0 i)
      (i :: List.range' (i + 1) (s.cores.length - i - 1)) hw p1
    have hw1i : (clearLoop s hw (List.range' 0 i)).1.cores i = hw.cores i := by
      rw [p3 i]
      simp [List.mem_range'_1]
    have hfail1 :
        ((clearLoop s hw (List.range' 0 i)).1.cores i).clear_res =
          .error e := by
      rw [hw1i]
      exact hfail
    have hcore := core_ok_of_present s hp i hik
    have hstep := clearLoop_cons_fail s (clearLoop s hw (List.range' 0 i)).1
      i (List.range' (i + 1) (s.cores.length - i - 1)) e hcore hfail1
    have hres : s.clear_all_hw_breakpoints hw =
        ({ (clearLoop s hw (List.range' 0 i)).1 with
            trace := (clearLoop s hw (List.range' 0 i)).1.trace ++
              [Event.clearBp i] }, .error e) := by
      rw [hmain, hsplit, happ, hstep]
    have htrace : (s.clear_all_hw_breakpoints hw).1.trace =
        (List.range' 0 i).map Event.clearBp ++ [Event.clearBp i] := by
      rw [hres]
      show (clearLoop s hw (List.range' 0 i)).1.trace ++ [Event.clearBp i] = _
      rw [p2, htr, List.nil_append]
    have hcores : ∀ m, (s.clear_all_hw_breakpoints hw).1.cores m =
        (clearLoop s hw (List.range' 0 i)).1.cores m := by
      intro m
      rw [hres]
    refine ⟨by rw [hres], fun j hj => ⟨?_, ?_⟩, ?_, ?_, fun j hj => ⟨?_, ?_⟩⟩
    · rw [htrace, List.count_append,
        List.count_map_of_injective _ _ clearBp_injective]
      have hone : List.count j (List.range' 0 i) = 1 :=
        List.count_eq_one_of_mem (List.nodup_range' 0 i)
          (List.mem_range'_1.mpr (by omega))
      have hzero : List.count (Event.clearBp j) [Event.clearBp i] = 0 :=
        List.count_eq_zero.mpr (fun hx => by
          have hx2 := List.mem_singleton.mp hx
          injection hx2 with hji
          omega)
      rw [hone, hzero]
    · rw [hcores j, p3 j]
      simp [List.mem_range'_1, hj]
    · rw [htrace, List.count_append,
        List.count_map_of_injective _ _ clearBp_injective]
      have hzero : List.count i (List.range' 0 i) = 0 :=
        List.count_eq_zero.mpr (fun hx => by
          have := List.mem_range'_1.mp hx
          omega)
      rw [hzero]
      simp
    · rw [hcores i, hw1i]
    · rw [htrace, List.count_append,
        List.count_map_of_injective _ _ clearBp_injective]
      have hz1 : List.count j (List.range' 0 i) = 0 :=
        List.count_eq_zero.mpr (fun hx => by
          have := List.mem_range'_1.mp hx
          omega)
      have hz2 : List.count (Event.clearBp j) [Event.clearBp i] = 0 :=
        List.count_eq_zero.mpr (fun hx => by
          have hx2 := List.mem_singleton.mp hx
          injection hx2 with hji
          omega)
      rw [hz1, hz2]
    · rw [hcores j, p3 j]
      simp [List.mem_range'_1, show ¬ j < i by omega]

/-- Silicon whose core clear operation fails. -/
def hwClearFail : Hw :=
  ⟨fun _ => { hcGood with clear_res := .error (.Probe "clear failed") }, []⟩

/-- Witness for C3: on a one-core session the clear runs exactly once and
zeroes the breakpoints; with a failing clear the call fails and the core is
untouched. -/
theorem c3_witness :
    ((sessArm.clear_all_hw_breakpoints hwGood).2 = .ok () ∧
      List.count (Event.clearBp 0)
        (sessArm.clear_all_hw_breakpoints hwGood).1.trace = 1 ∧
      ((sessArm.clear_all_hw_breakpoints hwGood).1.cores 0).breakpoints = 0) ∧
    ((sessArm.clear_all_hw_breakpoints hwClearFail).2 =
        .error (.Probe "clear failed") ∧
      (sessArm.clear_all_hw_breakpoints hwClearFail).1.cores 0 =
        hwClearFail.cores 0) := by
  have hp : matchingInterfacePresent sessArm := ⟨armOkIface, rfl⟩
  have hA := (c3_clear_all_each_core_once sessArm hwGood hp rfl).1
    (fun n _ => rfl)
  have hB := (c3_clear_all_each_core_once sessArm hwClearFail hp rfl).2
    0 (.Probe "clear failed") (by decide)
    (fun j hj => absurd hj (by omega)) rfl
  exact ⟨⟨hA.1, (hA.2 0 (by decide)).1, (hA.2 0 (by decide)).2⟩,
    hB.1, hB.2.2.2.1⟩

/-! ## C1 — the reset-under-debug sequence of Session::new -/

theorem waitLoop_eval_some (hc : HwCore) (t0 : Nat)
    (h : hc.halts_at = some t0) :
    ∀ (b t : Nat), waitLoop hc t b =
      if 0 < b ∧ t0 < t + b then .ok () else .error .Timeout := by
  intro b
  induction b with
  | zero =>
    intro t
    simp [waitLoop]
  | succ b ih =>
    intro t
    rw [waitLoop]
    by_cases hle : t0 ≤ t
    · simp only [HwCore.haltedAt, h]
      rw [if_pos (by simpa using hle), if_pos (by omega)]
    · simp only [HwCore.haltedAt, h]
      rw [if_neg (by simpa using hle), ih (t + 1)]
      by_cases hb : 0 < b ∧ t0 < t + 1 + b
      · rw [if_pos hb, if_pos (by omega)]
      · rw [if_neg hb, if_neg (by omega)]

theorem waitLoop_eval_none (hc : HwCore) (h : hc.halts_at = none) :
    ∀ (b t : Nat), waitLoop hc t b = .error .Timeout := by
  intro b
  induction b with
  | zero => intro t; rfl
  | succ b ih =>
    intro t
    rw [waitLoop]
    simp [HwCore.haltedAt, h]
    exact ih (t + 1)

theorem mkSession_probe (probe : ProbeB) (target : Target) :
    (mkSession probe target).probe = probe := rfl

theorem mkSession_present_arm (probe : ProbeB) (target : Target)
    (ai : ArmIfaceB) (harch : target.architecture = .Arm)
    (harm : probe.arm_interface = .ok (some ai)) :
    matchingInterfacePresent (mkSession probe target) := by
  unfold matchingInterfacePresent mkSession interfaceStateFor
  simp only [harch]
  exact ⟨ai, harm⟩

/-- C1: with `attach_method = UnderReset`, `Session::new` performs, in this
order: enable debug mode on core 0, arm the reset catch on core 0, deassert
the physical reset line via the transport, poll core 0 for halted status
with a 100 ms bound (failing with the timeout error on expiry), and clear
the reset catch — followed by construction's breakpoint clear; the hardware
trace records exactly this order; the failure of any step aborts
construction and returns that failure as an `Except.error` (no session
value exists in that case). -/
theorem c1_under_reset_sequence (probe : ProbeB) (reg : Registry)
    (sel : TargetSelector) (target : Target) (hw : Hw) (ai : ArmIfaceB)
    (hres : (get_target_from_selector sel probe reg).2 = .ok target)
    (harch : target.architecture = .Arm)
    (harm : probe.arm_interface = .ok (some ai))
    (htr : hw.trace = []) :
    ((hw.cores 0).debug_start_res = .ok () →
      (hw.cores 0).catch_set_res = .ok () →
      probe.reset_deassert_res = .ok () →
      ∀ t0, (hw.cores 0).halts_at = some t0 → t0 < 100 →
      (hw.cores 0).catch_clear_res = .ok () →
      (hw.cores 0).clear_res = .ok () →
      (Session.new probe reg sel .UnderReset hw).2 =
        .ok (mkSession probe target) ∧
      (Session.new probe reg sel .UnderReset hw).1.trace =
        [Event.debugStart 0, Event.catchSet 0, Event.resetDeassert,
          Event.waitHalt 0 100, Event.catchClear 0, Event.clearBp 0] ∧
      ((Session.new probe reg sel .UnderReset hw).1.cores 0).halted =
        true) ∧
    ((hw.cores 0).debug_start_res = .ok () →
      (hw.cores 0).catch_set_res = .ok () →
      probe.reset_deassert_res = .ok () →
      (hw.cores 0).halts_at = none →
      (Session.new probe reg sel .UnderReset hw).2 = .error .Timeout ∧
      (Session.new probe reg sel .UnderReset hw).1.trace =
        [Event.debugStart 0, Event.catchSet 0, Event.resetDeassert,
          Event.waitHalt 0 100]) ∧
    (∀ e, (hw.cores 0).debug_start_res = .error e →
      (Session.new probe reg sel .UnderReset hw).2 = .error e ∧
      (Session.new probe reg sel .UnderReset hw).1.trace =
        [Event.debugStart 0]) ∧
    (∀ e, (hw.cores 0).debug_start_res = .ok () →
      (hw.cores 0).catch_set_res = .error e →
      (Session.new probe reg sel .UnderReset hw).2 = .error e ∧
      (Session.new probe reg sel .UnderReset hw).1.trace =
        [Event.debugStart 0, Event.catchSet 0]) ∧
    (∀ e, (hw.cores 0).debug_start_res = .ok () →
      (hw.cores 0).catch_set_res = .ok () →
      probe.reset_deassert_res = .error e →
      (Session.new probe reg sel .UnderReset hw).2 = .error e ∧
      (Session.new probe reg sel .UnderReset hw).1.trace =
        [Event.debugStart 0, Event.catchSet 0, Event.resetDeassert]) ∧
    (∀ e t0, (hw.cores 0).debug_start_res = .ok () →
      (hw.cores 0).catch_set_res = .ok () →
      probe.reset_deassert_res = .ok () →
      (hw.cores 0).halts_at = some t0 → t0 < 100 →
      (hw.cores 0).catch_clear_res = .error e →
      (Session.new probe reg sel .UnderReset hw).2 = .error e ∧
      (Session.new probe reg sel .UnderReset hw).1.trace =
        [Event.debugStart 0, Event.catchSet 0, Event.resetDeassert,
          Event.waitHalt 0 100, Event.catchClear 0]) := by
  have hpres := mkSession_present_arm probe target ai harch harm
  have hcore0 : (mkSession probe target).core 0 = .ok ⟨0⟩ :=
    core_ok_of_present (mkSession probe target) hpres 0 (by simp [mkSession])
  have hrange : List.range (mkSession probe target).cores.length = [0] := by
    have hlen1 : (mkSession probe target).cores.length = 1 := by
      simp [mkSession]
    rw [hlen1]
    decide
  refine ⟨?_, ?_, ?_, ?_, ?_, ?_⟩
  · intro hds hcs hdea t0 ht0 hb hcc hclr
    simp [Session.new, hres, underResetSequence, hcore0, mkSession_probe,
      hwDebugCoreStart, hwResetCatchSet, probeResetDeassert,
      hwWaitForCoreHalted, hwResetCatchClear,
      Session.clear_all_hw_breakpoints, hrange, clearLoop,
      hwClearBreakpoints, Hw.setCore, htr,
      hds, hcs, hdea, ht0, hb, hcc, hclr, waitLoop_eval_some]
  · intro hds hcs hdea ht0
    simp [Session.new, hres, underResetSequence, hcore0, mkSession_probe,
      hwDebugCoreStart, hwResetCatchSet, probeResetDeassert,
      hwWaitForCoreHalted, Hw.setCore, htr,
      hds, hcs, hdea, ht0, waitLoop_eval_none]
  · intro e hds
    simp [Session.new, hres, underResetSequence, hcore0, mkSession_probe,
      hwDebugCoreStart, Hw.setCore, htr, hds]
  · intro e hds hcs
    simp [Session.new, hres, underResetSequence, hcore0, mkSession_probe,
      hwDebugCoreStart, hwResetCatchSet, Hw.setCore, htr, hds, hcs]
  · intro e hds hcs hdea
    simp [Session.new, hres, underResetSequence, hcore0, mkSession_probe,
      hwDebugCoreStart, hwResetCatchSet, probeResetDeassert,
      Hw.setCore, htr, hds, hcs, hdea]
  · intro e t0 hds hcs hdea ht0 hb hcc
    simp [Session.new, hres, underResetSequence, hcore0, mkSession_probe,
      hwDebugCoreStart, hwResetCatchSet, probeResetDeassert,
      hwWaitForCoreHalted, hwResetCatchClear, Hw.setCore, htr,
      hds, hcs, hdea, ht0, hb, hcc, waitLoop_eval_some]

/-- Witness for C1: over a well-behaved ARM transport the under-reset
construction succeeds with the full ordered trace and the core observed
halted; over a never-halting transport it fails with the timeout error. -/
theorem c1_witness :
    ((Session.new probeArm regNRF (.Specified tgtArm) .UnderReset hwGood).2 =
        .ok (mkSession probeArm tgtArm) ∧
      (Session.new probeArm regNRF (.Specified tgtArm) .UnderReset
          hwGood).1.trace =
        [Event.debugStart 0, Event.catchSet 0, Event.resetDeassert,
          Event.waitHalt 0 100, Event.catchClear 0, Event.clearBp 0] ∧
      ((Session.new probeArm regNRF (.Specified tgtArm) .UnderReset
          hwGood).1.cores 0).halted = true) ∧
    (Session.new probeArm regNRF (.Specified tgtArm) .UnderReset hwNever).2 =
      .error .Timeout :=
  ⟨(c1_under_reset_sequence probeArm regNRF (.Specified tgtArm) tgtArm hwGood
      armOkIface rfl rfl rfl rfl).1 rfl rfl rfl 0 rfl (by decide) rfl rfl,
    ((c1_under_reset_sequence probeArm regNRF (.Specified tgtArm) tgtArm
      hwNever armOkIface rfl rfl rfl rfl).2.1 rfl rfl rfl rfl).1⟩
